import Mathlib

/-!
Verification of the narration core of the AI-Powered-Document-Reader
repository: a shallow embedding of `src/hooks/useSpeechSynthesis.ts`
(the `useSpeechSynthesis` hook plus the `App` component that consumes it)
and `src/services/fileParser.ts`, followed by theorems settling the
specification claims.

Modelling conventions:
- React `useState` fields become fields of an explicit `AppState` record;
  each handler becomes a function `AppState → AppState` (paired with the
  list of requests it issues to the speech backend, so that "exactly one
  cancel / speak call" claims are statable).
- The speech backend (`window.speechSynthesis`) is external: its live
  voice list is passed as an argument where the code calls `getVoices()`,
  and its asynchronous events (`boundary`, `end`, `error`, `voiceschanged`)
  are modelled as an `Event` type dispatched by a `step` function.
- JavaScript strings are modelled as Lean `String` (the texts involved are
  ASCII, where JS UTF-16 code-unit indexing and Lean character indexing
  agree); `String.prototype.split(/\s+/)` is embedded as `jsSplitWS`
  below, including its production of empty pieces at leading/trailing
  whitespace runs.
- JavaScript numbers holding small integers are modelled as `Int`
  (`currentWordIndex` can be `-1`).
-/

/-- The subset of JavaScript regex `\s` relevant here: ASCII whitespace
(space, tab, line feed, carriage return, vertical tab, form feed) plus
no-break space. -/
def isJsWS (c : Char) : Bool :=
  c = ' ' || c = '\t' || c = '\n' || c = '\r' ||
  c = '\x0b' || c = '\x0c' || c = ' '

/-- Worker for `jsSplitWS`. `skipping = true` means the previous character
belonged to a whitespace run whose piece has already been emitted; `cur`
is the (reversed) piece currently being accumulated. -/
def jsSplitWSAux : List Char → Bool → List Char → List (List Char)
  | [], _, cur => [cur.reverse]
  | c :: rest, true, _ =>
      if isJsWS c then jsSplitWSAux rest true []
      else jsSplitWSAux rest false [c]
  | c :: rest, false, cur =>
      if isJsWS c then cur.reverse :: jsSplitWSAux rest true []
      else jsSplitWSAux rest false (c :: cur)

/-- Embedding of JavaScript `s.split(/\s+/)` on the character list of `s`:
pieces are the maximal runs of non-whitespace characters, except that a
leading whitespace run contributes an empty first piece and a trailing
whitespace run contributes an empty last piece, exactly as in ECMAScript
`String.prototype.split` with separator `\s+` (so `"".split` gives `[""]`,
`"a ".split` gives `["a",""]`, `" a".split` gives `["","a"]`). -/
def jsSplitWS (cs : List Char) : List (List Char) :=
  jsSplitWSAux cs false []

/-- Embedding of the word-index computation of `App.handleBoundary`
(src/hooks/useSpeechSynthesis.ts lines 293-299):
`extractedText.substring(0, event.charIndex).split(/\s+/).length - 1`. -/
def boundaryWordIndex (sourceText : String) (charIndex : Nat) : Int :=
  let textUpToChar := sourceText.toList.take charIndex
  let wordsUpToChar := jsSplitWS textUpToChar
  (wordsUpToChar.length : Int) - 1

/-- Model of `VoiceOption` from `src/types.ts` as consumed by the hook:
the fields name, lang and uri. -/
structure VoiceOption where
  name : String
  lang : String
  uri : String
deriving DecidableEq

/-- A raw `SpeechSynthesisVoice` reported by the backend:
the fields the code reads (`name`, `lang`, `voiceURI`). -/
structure RawVoice where
  name : String
  lang : String
  voiceURI : String
deriving DecidableEq

/-- Whether `needle` begins `hay` (JS `String.prototype.startsWith` on
char lists). -/
def charsStartWith : List Char → List Char → Bool
  | [], _ => true
  | _ :: _, [] => false
  | a :: as, b :: bs => a = b && charsStartWith as bs

/-- Whether `needle` occurs contiguously in `hay`
(JS `String.prototype.includes` on char lists). -/
def charsInclude (needle : List Char) : List Char → Bool
  | [] => charsStartWith needle []
  | c :: rest => charsStartWith needle (c :: rest) || charsInclude needle rest

/-- The check `v.name.includes("Google")` from the default-voice
heuristic (the source uses single-quoted JS string literals). -/
def nameIncludesGoogle (name : String) : Bool :=
  charsInclude "Google".toList name.toList

/-- The language filter of `handleVoicesChanged`: the lang must start
with "en", "es" or "pt". -/
def langAllowed (lang : String) : Bool :=
  charsStartWith "en".toList lang.toList ||
  charsStartWith "es".toList lang.toList ||
  charsStartWith "pt".toList lang.toList

/-- The map step of `handleVoicesChanged`:
`{ name: v.name, lang: v.lang, uri: v.voiceURI }`. -/
def rawToOption (v : RawVoice) : VoiceOption :=
  { name := v.name, lang := v.lang, uri := v.voiceURI }

/-- The filtered, mapped voice list computed by `handleVoicesChanged`. -/
def availableVoicesOf (backendVoices : List RawVoice) : List VoiceOption :=
  (backendVoices.filter (fun v => langAllowed v.lang)).map rawToOption

/-- The default-voice choice of `handleVoicesChanged`: the first voice
whose name includes "Google" and whose lang starts with "en", else the
first available voice. -/
def defaultVoiceOf (availableVoices : List VoiceOption) : Option VoiceOption :=
  match availableVoices.find?
      (fun v => nameIncludesGoogle v.name && charsStartWith "en".toList v.lang.toList) with
  | some v => some v
  | none => availableVoices.head?

/-- A `SpeechSynthesisUtterance` as built by `play`: its text, the resolved
voice object assigned to `utterance.voice` (absent when the selected
voice uri did not resolve), the `extractedText` captured by the
`onBoundary` closure attached to it, and an identity distinguishing it
from other utterance objects. -/
structure Utterance where
  text : String
  voice : Option RawVoice
  capturedText : String
  id : Nat
deriving DecidableEq

/-- A request issued to the speech backend
(`window.speechSynthesis.cancel/speak/pause/resume`). -/
inductive BackendRequest where
  | cancel : BackendRequest
  | speak : Utterance → BackendRequest
  | pauseReq : BackendRequest
  | resumeReq : BackendRequest
deriving DecidableEq

def BackendRequest.isSpeak : BackendRequest → Bool
  | BackendRequest.speak _ => true
  | _ => false

def BackendRequest.isCancel : BackendRequest → Bool
  | BackendRequest.cancel => true
  | _ => false

/-- The combined mutable state of the `App` component and the
`useSpeechSynthesis` hook. `created` records every utterance object ever
constructed (their event handlers stay alive even after cancellation);
`nextId` supplies fresh utterance identities. -/
structure AppState where
  extractedText : String
  currentWordIndex : Int
  error : Option String
  isProcessing : Bool
  voices : List VoiceOption
  selectedVoice : Option VoiceOption
  isSpeaking : Bool
  isPaused : Bool
  utteranceRef : Option Utterance
  created : List Utterance
  nextId : Nat
deriving DecidableEq

/-- The initial render state: all `useState` initial values. -/
def initState : AppState :=
  { extractedText := ""
    currentWordIndex := -1
    error := none
    isProcessing := false
    voices := []
    selectedVoice := none
    isSpeaking := false
    isPaused := false
    utteranceRef := none
    created := []
    nextId := 0 }

/-- The playState view that the specification places on the two hook
booleans:
`Speaking` when `isSpeaking`, `Paused` when `isPaused`, else `Idle`. -/
inductive PlayState where
  | Idle : PlayState
  | Speaking : PlayState
  | Paused : PlayState
deriving DecidableEq

def AppState.playState (s : AppState) : PlayState :=
  if s.isSpeaking then PlayState.Speaking
  else if s.isPaused then PlayState.Paused
  else PlayState.Idle

/-- Embedding of `handleVoicesChanged`
(src/hooks/useSpeechSynthesis.ts lines 14-24).
`capturedSelectedVoice` is the `selectedVoice` value that the closure of
the handler captured when it was created; because the surrounding `useEffect` runs
once with an empty dependency list (line 35, with the exhaustive-deps lint
suppressed), the handler registered on the backend captured the
mount-time value `none` and keeps it for its whole lifetime. -/
def handleVoicesChanged (capturedSelectedVoice : Option VoiceOption)
    (backendVoices : List RawVoice) (s : AppState) : AppState :=
  let availableVoices := availableVoicesOf backendVoices
  let s1 := { s with voices := availableVoices }
  if availableVoices.length > 0 && capturedSelectedVoice.isNone then
    { s1 with selectedVoice := defaultVoiceOf availableVoices }
  else s1

/-- Embedding of `play` (src/hooks/useSpeechSynthesis.ts lines 37-66).
`liveVoices` is
what `window.speechSynthesis.getVoices()` returns at call time. Returns
the new state and the backend requests issued, in order. -/
def play (liveVoices : List RawVoice) (text : String) (s : AppState) :
    AppState × List BackendRequest :=
  if s.isPaused && s.utteranceRef.isSome then
    ({ s with isPaused := false, isSpeaking := true }, [BackendRequest.resumeReq])
  else if text ≠ "" && s.selectedVoice.isSome then
    match s.selectedVoice with
    | none => (s, [])
    | some sel =>
      let voiceObject := liveVoices.find? (fun v => v.voiceURI = sel.uri)
      let u : Utterance :=
        { text := text
          voice := voiceObject
          capturedText := s.extractedText
          id := s.nextId }
      ({ s with utteranceRef := some u
                isSpeaking := true
                isPaused := false
                created := s.created ++ [u]
                nextId := s.nextId + 1 },
       [BackendRequest.cancel, BackendRequest.speak u])
  else (s, [])

/-- Embedding of `pause` (src/hooks/useSpeechSynthesis.ts lines 68-74). -/
def pause (s : AppState) : AppState × List BackendRequest :=
  if s.isSpeaking && !s.isPaused then
    ({ s with isPaused := true, isSpeaking := false }, [BackendRequest.pauseReq])
  else (s, [])

/-- Embedding of `stop` (src/hooks/useSpeechSynthesis.ts lines 76-82):
one `cancel()`
call, both flags cleared, the utterance ref dropped, and `onEnd()` — which
is `App.handleEnd`, i.e. `setCurrentWordIndex(-1)`. -/
def stop (s : AppState) : AppState × List BackendRequest :=
  ({ s with isSpeaking := false
            isPaused := false
            utteranceRef := none
            currentWordIndex := -1 },
   [BackendRequest.cancel])

/-- Embedding of `App.handleFileProcessed` (lines 317-320): stop current
speech, then
replace the extracted text. -/
def handleFileProcessed (text : String) (s : AppState) :
    AppState × List BackendRequest :=
  let s1 := (stop s).1
  ({ s1 with extractedText := text }, (stop s).2)

/-- Embedding of `App.handleEnd` (lines 301-303). -/
def handleEnd (s : AppState) : AppState :=
  { s with currentWordIndex := -1 }

/-- Look up a created utterance object by identity: the backend delivers
each event against the utterance handle that produced it, and the handlers
attached to that object run. -/
def findUtt (s : AppState) (uid : Nat) : Option Utterance :=
  s.created.find? (fun u => u.id = uid)

/-- Delivery of a `boundary` event on utterance `uid`: the `onBoundary`
handler attached to that utterance (lines 49 and 293-299) runs
`App.handleBoundary` with the `extractedText` its closure captured; no
check compares `uid` against the active utterance. -/
def dispatchBoundary (uid : Nat) (charIndex : Nat) (s : AppState) : AppState :=
  match findUtt s uid with
  | some u => { s with currentWordIndex := boundaryWordIndex u.capturedText charIndex }
  | none => s

/-- Delivery of an `end` event on utterance `uid`: the `onend` handler
(lines 50-54) clears both flags and calls `onEnd()` = `handleEnd`. -/
def dispatchEnd (uid : Nat) (s : AppState) : AppState :=
  match findUtt s uid with
  | some _ => handleEnd { s with isSpeaking := false, isPaused := false }
  | none => s

/-- Delivery of an `error` event on utterance `uid`: the `onerror` handler
(lines 55-59) logs, clears both flags — and does not call `onEnd()`. -/
def dispatchError (uid : Nat) (s : AppState) : AppState :=
  match findUtt s uid with
  | some _ => { s with isSpeaking := false, isPaused := false }
  | none => s

/-- The events that can reach the component: backend events and the user
interactions wired up in `App`/`Controls`. `playClick` is the Controls
button, which calls `play(extractedText)`; `voicesChanged` dispatches to
the mount-time `handleVoicesChanged` closure, whose captured
`selectedVoice` is `none`. -/
inductive Event where
  | voicesChanged : List RawVoice → Event
  | selectVoice : VoiceOption → Event
  | fileLoaded : String → Event
  | playClick : List RawVoice → Event
  | pauseClick : Event
  | stopClick : Event
  | boundary : Nat → Nat → Event
  | endEvt : Nat → Event
  | errorEvt : Nat → Event

/-- One step of the component: apply the handler the event triggers,
collecting the backend requests it issues. -/
def step (e : Event) (s : AppState) : AppState × List BackendRequest :=
  match e with
  | Event.voicesChanged bvs => (handleVoicesChanged none bvs s, [])
  | Event.selectVoice v => ({ s with selectedVoice := some v }, [])
  | Event.fileLoaded t => handleFileProcessed t s
  | Event.playClick live => play live s.extractedText s
  | Event.pauseClick => pause s
  | Event.stopClick => stop s
  | Event.boundary uid c => (dispatchBoundary uid c s, [])
  | Event.endEvt uid => (dispatchEnd uid s, [])
  | Event.errorEvt uid => (dispatchError uid s, [])

/-- Run a sequence of events, concatenating the backend requests issued. -/
def run (es : List Event) (s : AppState) : AppState × List BackendRequest :=
  match es with
  | [] => (s, [])
  | e :: rest =>
    let p := step e s
    let q := run rest p.1
    (q.1, p.2 ++ q.2)

/-!
Embedding of `src/services/fileParser.ts`. The external decode libraries
(pdf.js, mammoth) are modelled as oracles passed in: an `Option` around a
decode function models the `window.pdfjsLib` / `window.mammoth` globals
possibly being absent, and the decode function returning `none` models the
library throwing on bytes it cannot parse. The `FileReader` itself is
assumed to deliver the bytes (its failure path only changes the message,
and no claim exercises it).
-/

/-- The per-page text assembly of `parsePdf`
(src/services/fileParser.ts lines 22-27): for each page,
the item strings joined with single spaces plus a newline, concatenated
over the pages. -/
def pdfPagesText (pages : List (List String)) : String :=
  String.join (pages.map (fun items => String.intercalate " " items ++ "\n"))

/-- Embedding of `parsePdf` (src/services/fileParser.ts lines 2-40):
missing library
rejects with the load message; a failed `getDocument` pipeline rejects
with the corrupt-PDF message; success resolves the assembled page text. -/
def parsePdf (pdfjsLib : Option (List Nat → Option (List (List String))))
    (bytes : List Nat) : Except String String :=
  match pdfjsLib with
  | none => Except.error "PDF processing library failed to load. Please check your internet connection and refresh the page."
  | some getDocument =>
    match getDocument bytes with
    | none => Except.error "Could not parse the PDF file. It may be corrupt or encrypted."
    | some pages => Except.ok (pdfPagesText pages)

/-- Embedding of `parseDocx` (src/services/fileParser.ts lines 42-70). -/
def parseDocx (mammoth : Option (List Nat → Option String))
    (bytes : List Nat) : Except String String :=
  match mammoth with
  | none => Except.error "Word document processing library failed to load. Please check your internet connection and refresh the page."
  | some extractRawText =>
    match extractRawText bytes with
    | none => Except.error "Could not parse the DOCX file. It may be corrupt or not a valid .docx file."
    | some value => Except.ok value

/-- The DOCX mime type string checked by `FileUpload.handleFile`. -/
def docxMime : String :=
  "application/vnd.openxmlformats-officedocument.wordprocessingml.document"

/-- A dropped/selected file: its mime type and contents. -/
structure MFile where
  mimeType : String
  bytes : List Nat

/-- Embedding of `FileUpload.handleFile` (App component source,
lines 121-144) combined with
`App.handleFileProcessed`: dispatch on mime type, parse, hand the text to
the app on success (which stops speech and replaces `extractedText`), or
record the thrown message in the `error` state on failure. -/
def handleFile (pdfjsLib : Option (List Nat → Option (List (List String))))
    (mammoth : Option (List Nat → Option String))
    (file : Option MFile) (s : AppState) : AppState × List BackendRequest :=
  match file with
  | none => (s, [])
  | some f =>
    if s.isProcessing then (s, [])
    else
      let s1 := { s with error := none, isProcessing := true }
      let result : Except String String :=
        if f.mimeType = "application/pdf" then parsePdf pdfjsLib f.bytes
        else if f.mimeType = docxMime then parseDocx mammoth f.bytes
        else Except.error "Unsupported file type. Please upload a PDF or DOCX file."
      match result with
      | Except.ok text =>
        let p := handleFileProcessed text s1
        ({ p.1 with isProcessing := false }, p.2)
      | Except.error msg =>
        ({ s1 with error := some msg, isProcessing := false }, [])

/-- A concrete backend voice used in witnesses and counterexamples. -/
def rvA : RawVoice := { name := "Alice", lang := "en-US", voiceURI := "uriA" }

/-- A second concrete backend voice. -/
def rvB : RawVoice := { name := "Bob", lang := "en-US", voiceURI := "uriB" }

/-- The voice `rvA` as the mapped `VoiceOption` of the hook. -/
def vA : VoiceOption := rawToOption rvA

/-- The voice `rvB` as the mapped `VoiceOption` of the hook. -/
def vB : VoiceOption := rawToOption rvB

/-- An event trace that loads a text and starts narration with voice
`rvA` available and resolvable. -/
def traceLoadPlay : List Event :=
  [Event.voicesChanged [rvA], Event.fileLoaded "Hello brave world",
   Event.playClick [rvA]]

/-- The state after `traceLoadPlay`: Speaking on utterance `u0`. -/
def sAfterLoadPlay : AppState := (run traceLoadPlay initState).1

/-- The utterance created by `traceLoadPlay`. -/
def u0 : Utterance :=
  { text := "Hello brave world", voice := some rvA,
    capturedText := "Hello brave world", id := 0 }

/-- Trace for the refresh-overwrite scenario: voices discovered, the user
selects `vB`, then the backend fires `voiceschanged` again with the same
list. -/
def traceRefreshOverwrite : List Event :=
  [Event.voicesChanged [rvA, rvB], Event.selectVoice vB,
   Event.voicesChanged [rvA, rvB]]

/-- Trace for play with an empty catalog: a text is loaded but the backend
never reported any voices. -/
def traceEmptyCatalogPlay : List Event :=
  [Event.fileLoaded "hello", Event.playClick []]

/-- Trace for the error-event scenario: load, play, a boundary at offset 6,
then a backend error event on the active utterance. -/
def traceBoundaryThenError : List Event :=
  traceLoadPlay ++ [Event.boundary 0 6, Event.errorEvt 0]

/-- Trace producing a replaced utterance: load and play one text, then
load and play another; utterance 0 is stale, utterance 1 is active. -/
def traceReplacedUtterance : List Event :=
  traceLoadPlay ++ [Event.fileLoaded "Bye", Event.playClick [rvA]]

/-- The state after `traceReplacedUtterance`. -/
def sReplaced : AppState := (run traceReplacedUtterance initState).1

/-- Trace reaching a Paused state with a live utterance handle. -/
def tracePlayPause : List Event :=
  [Event.voicesChanged [rvA], Event.fileLoaded "Some text",
   Event.playClick [rvA], Event.pauseClick]

/-- The state after `tracePlayPause`. -/
def sPausedLive : AppState := (run tracePlayPause initState).1

/-- A state with a selected voice and loaded text, used to exercise play
when the selected voice does not resolve against the live list. -/
def sSelectedUnresolved : AppState :=
  { initState with selectedVoice := some vA, extractedText := "hi" }

/-!
Theorems. One theorem per specification claim, with auxiliary lemmas and
witness/counterexample theorems alongside.
-/

/-- Every result of the split worker has at least one piece. -/
theorem one_le_jsSplitWSAux_length (cs : List Char) :
    ∀ (skipping : Bool) (cur : List Char),
      1 ≤ (jsSplitWSAux cs skipping cur).length := by
  induction cs with
  | nil =>
      intro skipping cur
      cases skipping <;> simp [jsSplitWSAux]
  | cons c rest ih =>
      intro skipping cur
      cases skipping
      · cases hc : isJsWS c
        · simpa [jsSplitWSAux, hc] using ih false (c :: cur)
        · simp [jsSplitWSAux, hc]
      · cases hc : isJsWS c
        · simpa [jsSplitWSAux, hc] using ih false [c]
        · simpa [jsSplitWSAux, hc] using ih true []

/-- JavaScript split always returns at least one piece. -/
theorem one_le_jsSplitWS_length (cs : List Char) : 1 ≤ (jsSplitWS cs).length :=
  one_le_jsSplitWSAux_length cs false []

/-- C1: delivering a boundary event at character offset `c` on the active
utterance sets `currentWordIndex` to the number of pieces of the
JavaScript whitespace split of the first `c` characters of the loaded
text, minus one; in particular, for the text "Hello brave world" its
value at offset 6 is 1. -/
theorem boundary_index_is_prefix_split_count
    (s : AppState) (u : Utterance) (c : Nat)
    (_hactive : s.utteranceRef = some u)
    (hfound : findUtt s u.id = some u) :
    (step (Event.boundary u.id c) s).1.currentWordIndex
      = ((jsSplitWS (u.capturedText.toList.take c)).length : Int) - 1 ∧
    boundaryWordIndex "Hello brave world" 6 = 1 := by
  refine ⟨?_, by decide⟩
  simp [step, dispatchBoundary, hfound, boundaryWordIndex]

/-- Witness for C1 at the concrete Speaking state reached by
`traceLoadPlay`, with offset 6. -/
theorem boundary_index_is_prefix_split_count_witness :
    (step (Event.boundary u0.id 6) sAfterLoadPlay).1.currentWordIndex
      = ((jsSplitWS (u0.capturedText.toList.take 6)).length : Int) - 1 ∧
    boundaryWordIndex "Hello brave world" 6 = 1 :=
  boundary_index_is_prefix_split_count sAfterLoadPlay u0 6 (by decide) (by decide)

/-- C2 (violated by the code): the voiceschanged handler is created once,
in a mount effect with an empty dependency list, so the `selectedVoice`
its closure reads is permanently the mount-time value `none`; a refresh
delivered after the user selected `vB` therefore re-applies the default
choice and overwrites the selection with `vA`, even though `vB` is still
in the backend list. -/
theorem refresh_overwrites_user_selection :
    (run [Event.voicesChanged [rvA, rvB], Event.selectVoice vB]
        initState).1.selectedVoice = some vB ∧
    vB ∈ availableVoicesOf [rvA, rvB] ∧
    (run traceRefreshOverwrite initState).1.selectedVoice = some vA ∧
    vA ≠ vB := by decide

/-- C3 counterexample: with a loaded non-empty text, an empty catalog and
no voice ever selected, `play` issues no speak request at all. -/
theorem play_empty_catalog_no_speak_cex :
    (run traceEmptyCatalogPlay initState).1.extractedText = "hello" ∧
    (run traceEmptyCatalogPlay initState).1.voices = [] ∧
    (run traceEmptyCatalogPlay initState).1.selectedVoice = none ∧
    (run traceEmptyCatalogPlay initState).2.countP BackendRequest.isSpeak = 0 := by
  decide

/-- C3 amended: `play(text)` with no selected voice (and not paused) is a
no-op — no speak request and no state change; the backend-default
fallback only applies when a voice is selected but fails to resolve. -/
theorem play_without_selected_voice_is_noop
    (live : List RawVoice) (text : String) (s : AppState)
    (hsel : s.selectedVoice = none) (hp : s.isPaused = false) :
    play live text s = (s, []) := by
  simp [play, hsel, hp]

/-- Witness for the amended C3 at the empty initial state. -/
theorem play_without_selected_voice_is_noop_witness :
    play [] "hello" initState = (initState, []) :=
  play_without_selected_voice_is_noop [] "hello" initState (by decide) (by decide)

/-- C4 (violated by the code): after a boundary event at offset 6 followed
by a backend error event on the active utterance, the session is Idle but
`currentWordIndex` is still 1, because the `onerror` handler clears the
two flags without calling `onEnd()`. -/
theorem error_event_leaves_word_index_stale :
    (run traceBoundaryThenError initState).1.playState = PlayState.Idle ∧
    (run traceBoundaryThenError initState).1.currentWordIndex = 1 := by decide

/-- C5 counterexample: after text "Bye" is loaded and playing on utterance
1, delivering a boundary event for the stale utterance 0 (from the
previous text) changes the current session index from -1 to 1. -/
theorem stale_boundary_mutates_current_session :
    sReplaced.utteranceRef =
      some { text := "Bye", voice := some rvA, capturedText := "Bye", id := 1 } ∧
    sReplaced.currentWordIndex = -1 ∧
    findUtt sReplaced 0 = some u0 ∧
    (step (Event.boundary 0 6) sReplaced).1.currentWordIndex = 1 := by decide

/-- C5 amended: backend events are dispatched to the handlers attached to
the utterance that produced them with no comparison against the active
handle, so a boundary event delivered for a stale (replaced) utterance
does mutate the current session, setting `currentWordIndex` from the
stale utterance captured text. -/
theorem stale_boundary_event_applies
    (s : AppState) (u : Utterance) (c : Nat)
    (hfound : findUtt s u.id = some u)
    (_hstale : s.utteranceRef ≠ some u) :
    (step (Event.boundary u.id c) s).1.currentWordIndex
      = boundaryWordIndex u.capturedText c := by
  simp [step, dispatchBoundary, hfound]

/-- Witness for the amended C5: the stale utterance 0 against the state
where utterance 1 is active. -/
theorem stale_boundary_event_applies_witness :
    (step (Event.boundary u0.id 6) sReplaced).1.currentWordIndex
      = boundaryWordIndex u0.capturedText 6 :=
  stale_boundary_event_applies sReplaced u0 6 (by decide) (by decide)

/-- C6: `stop()` from any state leaves the session Idle with
`currentWordIndex = -1`, issues exactly one backend request, a cancel,
and is idempotent. -/
theorem stop_resets_and_cancels_once (s : AppState) :
    (stop s).1.playState = PlayState.Idle ∧
    (stop s).1.currentWordIndex = -1 ∧
    (stop s).2 = [BackendRequest.cancel] ∧
    (stop s).2.countP BackendRequest.isCancel = 1 ∧
    stop (stop s).1 = stop s :=
  ⟨rfl, rfl, rfl, rfl, rfl⟩

/-- C7: from Paused with a live utterance handle, `play` issues exactly a
resume request — no speak — and returns to Speaking; and the concrete
trace play, pause, play issues exactly one speak request in total. -/
theorem play_in_paused_resumes_without_new_speak
    (live : List RawVoice) (text : String) (s : AppState)
    (hp : s.isPaused = true) (hu : s.utteranceRef.isSome = true) :
    play live text s
      = ({ s with isPaused := false, isSpeaking := true },
         [BackendRequest.resumeReq]) ∧
    (run (tracePlayPause ++ [Event.playClick [rvA]]) initState).2.countP
        BackendRequest.isSpeak = 1 := by
  refine ⟨?_, by decide⟩
  simp [play, hp, hu]

/-- Witness for C7 at the concrete Paused state reached by
`tracePlayPause`. -/
theorem play_in_paused_resumes_without_new_speak_witness :
    play [rvA] "Some text" sPausedLive
      = ({ sPausedLive with isPaused := false, isSpeaking := true },
         [BackendRequest.resumeReq]) ∧
    (run (tracePlayPause ++ [Event.playClick [rvA]]) initState).2.countP
        BackendRequest.isSpeak = 1 :=
  play_in_paused_resumes_without_new_speak [rvA] "Some text" sPausedLive
    (by decide) (by decide)

/-- C8: when a voice is selected but its uri does not resolve against the
live backend list at call time, `play` still cancels and submits the
utterance, with no voice object assigned (backend default applies). -/
theorem play_unresolved_voice_speaks_with_default
    (live : List RawVoice) (text : String) (s : AppState) (sel : VoiceOption)
    (hp : s.isPaused = false)
    (ht : text ≠ "")
    (hsel : s.selectedVoice = some sel)
    (hres : live.find? (fun v => v.voiceURI = sel.uri) = none) :
    (play live text s).2
      = [BackendRequest.cancel,
         BackendRequest.speak
           { text := text, voice := none,
             capturedText := s.extractedText, id := s.nextId }] := by
  simp [play, hp, ht, hsel, hres]

/-- Witness for C8: selected voice `vA`, live list empty. -/
theorem play_unresolved_voice_speaks_with_default_witness :
    (play [] "hi" sSelectedUnresolved).2
      = [BackendRequest.cancel,
         BackendRequest.speak
           { text := "hi", voice := none,
             capturedText := sSelectedUnresolved.extractedText,
             id := sSelectedUnresolved.nextId }] :=
  play_unresolved_voice_speaks_with_default [] "hi" sSelectedUnresolved vA
    (by decide) (by decide) (by decide) (by decide)

/-- C9: decoding a file of mime kind application/pdf whose bytes the PDF
pipeline cannot parse leaves `extractedText` unchanged, records the
single corrupt-document message in the error state, and issues no backend
request (no session is stopped or replaced). -/
theorem corrupt_pdf_single_error_text_unchanged
    (getDocument : List Nat → Option (List (List String)))
    (mammothLib : Option (List Nat → Option String))
    (bytes : List Nat) (s : AppState)
    (hproc : s.isProcessing = false)
    (hbad : getDocument bytes = none) :
    (handleFile (some getDocument) mammothLib
        (some { mimeType := "application/pdf", bytes := bytes }) s).1.extractedText
      = s.extractedText ∧
    (handleFile (some getDocument) mammothLib
        (some { mimeType := "application/pdf", bytes := bytes }) s).1.error
      = some "Could not parse the PDF file. It may be corrupt or encrypted." ∧
    (handleFile (some getDocument) mammothLib
        (some { mimeType := "application/pdf", bytes := bytes }) s).2 = [] := by
  simp [handleFile, hproc, parsePdf, hbad]

/-- Witness for C9: a decoder rejecting every byte stream, applied at the
initial state. -/
theorem corrupt_pdf_single_error_text_unchanged_witness :
    (handleFile (some fun _ => none) none
        (some { mimeType := "application/pdf", bytes := [0] }) initState).1.extractedText
      = initState.extractedText ∧
    (handleFile (some fun _ => none) none
        (some { mimeType := "application/pdf", bytes := [0] }) initState).1.error
      = some "Could not parse the PDF file. It may be corrupt or encrypted." ∧
    (handleFile (some fun _ => none) none
        (some { mimeType := "application/pdf", bytes := [0] }) initState).2 = [] :=
  corrupt_pdf_single_error_text_unchanged (fun _ => none) none [0] initState
    rfl rfl

/-- C10: the boundary word-index computation is never negative (the split
always yields at least one piece), a boundary at offset 0 computes index
0, and dispatching a boundary event either leaves `currentWordIndex`
unchanged (unknown handle) or sets it to a non-negative value — never
back to -1. -/
theorem boundary_index_nonneg
    (sourceText : String) (c : Nat) (s : AppState) (uid : Nat) :
    0 ≤ boundaryWordIndex sourceText c ∧
    boundaryWordIndex sourceText 0 = 0 ∧
    ((dispatchBoundary uid c s).currentWordIndex = s.currentWordIndex ∨
      0 ≤ (dispatchBoundary uid c s).currentWordIndex) := by
  have hnn : ∀ (t : String) (k : Nat), 0 ≤ boundaryWordIndex t k := by
    intro t k
    have h1 := one_le_jsSplitWS_length (t.toList.take k)
    have h2 : (1 : Int) ≤ ((jsSplitWS (t.toList.take k)).length : Int) := by
      exact_mod_cast h1
    show 0 ≤ ((jsSplitWS (t.toList.take k)).length : Int) - 1
    omega
  refine ⟨hnn sourceText c, by simp [boundaryWordIndex, jsSplitWS, jsSplitWSAux], ?_⟩
  cases h : findUtt s uid with
  | none => exact Or.inl (by simp [dispatchBoundary, h])
  | some u =>
      refine Or.inr ?_
      simpa [dispatchBoundary, h] using hnn u.capturedText c
